import Mathlib

/-!
Verification development for the event-preparation pipeline of the sentry-rust
client (`src/client/real.rs`).  The Rust code is embedded shallowly: the
`protocol` / `scope` data types that the pipeline reads are modelled from the
spec's data-model section (they live outside the given sources), while every
piece of logic of `real.rs` — `parse_crate_name`, `Client::prepare_event`,
`Client::capture_event`, `Client::drain_events`, `Client::from_config` — is
translated function by function.  External collaborators (the transport, the
`is_sys_function` predicate, the cached SDK/debug-image constants, DSN
parsing) are passed in as explicit parameters.
-/

/-- First-some choice on options, mirroring Rust's `Option::or` /
"fill only if `None`" assignments. -/
def oOr {V : Type} (a b : Option V) : Option V :=
  match a with
  | some v => some v
  | none => b

/-- Insert into an association-list map with the overwrite semantics of
`HashMap::insert`: replace the binding if the key is present, append otherwise.
Keys stay unique when they were unique before. -/
def alInsert {V : Type} (m : List (String × V)) (k : String) (v : V) :
    List (String × V) :=
  match m with
  | [] => [(k, v)]
  | (k', v') :: rest =>
    if k' = k then (k, v) :: rest else (k', v') :: alInsert rest k v

/-- `HashMap::extend`: insert every binding of `l` into `m`, in order, each
insert overwriting any existing binding of the same key. -/
def alExtend {V : Type} (m l : List (String × V)) : List (String × V) :=
  l.foldl (fun acc p => alInsert acc p.1 p.2) m

/-- Lookup in an association-list map (first binding wins, which is the only
binding when keys are unique). -/
def alLookup {V : Type} (m : List (String × V)) (k : String) : Option V :=
  match m with
  | [] => none
  | (k', v) :: rest => if k' = k then some v else alLookup rest k

/-- Modelled from the spec: a stack frame of the protocol module (not under
src) carries an optional function name, an optional package name and a
tri-state in-app flag. -/
structure Frame where
  function : Option String
  package : Option String
  in_app : Option Bool
  deriving DecidableEq

/-- Modelled from the spec: a stack trace is an ordered sequence of frames. -/
structure Stacktrace where
  frames : List Frame
  deriving DecidableEq

/-- Modelled from the spec: an exception of the protocol module optionally
carries a stack trace (the only field `prepare_event` reads). -/
structure SentryException where
  stacktrace : Option Stacktrace
  deriving DecidableEq

/-- Modelled from the spec: the diagnostic record (`protocol::Event`) with the
fields touched by `prepare_event`.  Breadcrumbs, the user, map values, the SDK
info and debug images are opaque to the pipeline and modelled as strings. -/
structure Event where
  breadcrumbs : List String
  user : Option String
  extra : List (String × String)
  tags : List (String × String)
  contexts : List (String × String)
  transaction : Option String
  fingerprint : List String
  release : Option String
  environment : Option String
  server_name : Option String
  sdk_info : Option String
  platform : String
  debug_meta : List String
  exceptions : List SentryException
  deriving DecidableEq

/-- Modelled from the spec: the context snapshot (`scope::Scope`) read by
`prepare_event`. -/
structure Scope where
  breadcrumbs : List String
  user : Option String
  extra : List (String × String)
  tags : List (String × String)
  contexts : List (String × String)
  transaction : Option String
  fingerprint : Option (List String)
  deriving DecidableEq

/-- Configuration settings for the client (`ClientOptions`). -/
structure ClientOptions where
  in_app_include : List String
  in_app_exclude : List String
  extra_border_frames : List String
  max_breadcrumbs : Nat
  trim_backtraces : Bool
  release : Option String
  environment : Option String
  server_name : Option String
  user_agent : String
  deriving DecidableEq

/-- External collaborators of `prepare_event`: the process-wide cached
`SDK_INFO` and `DEBUG_META` constants, the `is_sys_function` predicate of the
backtrace-support module, and the automatic system-boundary predicate used by
`trim_stacktrace`.  None of them is under src, so they are parameters. -/
structure Globals where
  sdkInfo : String
  debugMetaImages : List String
  isSysFunction : String → Bool
  isWellKnownBorder : Frame → Bool

/-- Word characters of the crate-name regex character class `[a-zA-Z0-9_]`. -/
def isWordChar (c : Char) : Bool :=
  c.isAlphanum || c == '_'

/-- Whether a character list starts with one of the two path-separator tokens
`..` or `::` of the crate-name regex. -/
def startsWithSep : List Char → Bool
  | '.' :: '.' :: _ => true
  | ':' :: ':' :: _ => true
  | _ => false

/-- Core of the crate-name regex `([a-zA-Z0-9_]+?)(?:\.\.|::)` anchored at the
current position: lazily consume word characters, succeeding at the first
prefix that is immediately followed by a separator. -/
def crateScan : List Char → List Char → Option (List Char)
  | _, [] => none
  | acc, c :: rest =>
    if isWordChar c then
      if startsWithSep rest then some (acc ++ [c])
      else crateScan (acc ++ [c]) rest
    else none

/-- Tries to parse the rust crate from a function name: the regex
`^(?:_<)?([a-zA-Z0-9_]+?)(?:\.\.|::)` with backtracking over the optional
greedy `_<` wrapper. -/
def parse_crate_name (func_name : String) : Option String :=
  let cs := func_name.data
  let res :=
    match cs with
    | '_' :: '<' :: rest => oOr (crateScan [] rest) (crateScan [] cs)
    | _ => crateScan [] cs
  res.map (fun l => String.mk l)

/-- Sentinel fingerprint entry `{{ default }}`. -/
def fingerprintDefaultA : String := "\x7b\x7b default \x7d\x7d"

/-- Sentinel fingerprint entry `{{default}}`. -/
def fingerprintDefaultB : String := "\x7b\x7bdefault\x7d\x7d"

/-- Scope-merge half of `Client::prepare_event` (lines 270-321 of real.rs): each
block reads only fields no earlier block writes, so the sequence of in-place
mutations is one simultaneous record update.  Breadcrumbs are appended; user and
transaction are filled only when absent; extra/tags/contexts are `extend`ed when
the scope's map is non-empty; the fingerprint is replaced by the scope override
only when it is exactly the one-element default sentinel. -/
def mergeScope (event : Event) (scope : Scope) : Event :=
  { event with
    breadcrumbs :=
      if scope.breadcrumbs.isEmpty then event.breadcrumbs
      else event.breadcrumbs ++ scope.breadcrumbs
    user :=
      if event.user.isNone then
        match scope.user with
        | some u => some u
        | none => event.user
      else event.user
    extra :=
      if scope.extra.isEmpty then event.extra
      else alExtend event.extra scope.extra
    tags :=
      if scope.tags.isEmpty then event.tags
      else alExtend event.tags scope.tags
    contexts :=
      if scope.contexts.isEmpty then event.contexts
      else alExtend event.contexts scope.contexts
    transaction :=
      if event.transaction.isNone then
        match scope.transaction with
        | some t => some t
        | none => event.transaction
      else event.transaction
    fingerprint :=
      if event.fingerprint.length == 1 &&
          (event.fingerprint.headD "" == fingerprintDefaultA ||
            event.fingerprint.headD "" == fingerprintDefaultB) then
        match scope.fingerprint with
        | some fp => fp
        | none => event.fingerprint
      else event.fingerprint }

/-- Rust's `str::starts_with` on a string prefix. -/
def strStartsWith (s m : String) : Bool :=
  List.isPrefixOf m.data s.data

/-- Border predicate the closure at lines 348-354 passes to `trim_stacktrace`:
a frame is a border when its function name is one of the configured extra
border frames. -/
def borderPred (opts : ClientOptions) (frame : Frame) : Bool :=
  match frame.function with
  | some func => opts.extra_border_frames.contains func
  | none => false

/-- Modelled from the spec: `trim_stacktrace` of the utils module is not under
src.  Per the spec it removes a trailing contiguous run of frames that match
either the automatic system-boundary set or the caller-supplied border
predicate. -/
def trim_stacktrace (wellKnown : Frame → Bool) (pred : Frame → Bool)
    (st : Stacktrace) : Stacktrace :=
  Stacktrace.mk ((st.frames.reverse.dropWhile (fun f => wellKnown f || pred f)).reverse)

/-- One iteration of the per-frame classification loop (lines 359-407): skip
frames without a function name; fill a missing package from the crate name;
keep an explicit in-app flag (recording `true` ones); otherwise exclude
prefixes, then include prefixes, then the system-function heuristic.  The
boolean result is this frame's contribution to `any_in_app`. -/
def classifyFrame (opts : ClientOptions) (g : Globals) (frame : Frame) :
    Frame × Bool :=
  match frame.function with
  | none => (frame, false)
  | some func_name =>
    let frame1 :=
      if frame.package.isNone then
        { frame with package := parse_crate_name func_name }
      else frame
    match frame1.in_app with
    | some true => (frame1, true)
    | some false => (frame1, false)
    | none =>
      if opts.in_app_exclude.any (fun m => strStartsWith func_name m) then
        ({ frame1 with in_app := some false }, false)
      else if opts.in_app_include.any (fun m => strStartsWith func_name m) then
        ({ frame1 with in_app := some true }, true)
      else if g.isSysFunction func_name then
        ({ frame1 with in_app := some false }, false)
      else (frame1, false)

/-- The classification loop over all frames, threading the `any_in_app` flag
(initially false, OR-accumulated). -/
def classifyFrames (opts : ClientOptions) (g : Globals) :
    List Frame → List Frame × Bool
  | [] => ([], false)
  | f :: rest =>
    let r1 := classifyFrame opts g f
    let r2 := classifyFrames opts g rest
    (r1.1 :: r2.1, r1.2 || r2.2)

/-- Final fallback loop (lines 410-414): set `in_app` to true on every frame on
which it is still unset. -/
def applyFallback (frames : List Frame) : List Frame :=
  frames.map (fun f => if f.in_app.isNone then { f with in_app := some true } else f)

/-- Classification pass plus its fallback: run the loop, and if `any_in_app`
ended up false, apply the fallback (lines 358-415). -/
def classifyAndFallback (opts : ClientOptions) (g : Globals)
    (frames : List Frame) : List Frame :=
  let r := classifyFrames opts g frames
  if r.2 then r.1 else applyFallback r.1

/-- Per-stacktrace processing (lines 345-416): trim borders only when
`trim_backtraces` is set, then always classify frames and apply the fallback. -/
def processStacktrace (opts : ClientOptions) (g : Globals) (st : Stacktrace) :
    Stacktrace :=
  let st1 :=
    if opts.trim_backtraces then
      trim_stacktrace g.isWellKnownBorder (borderPred opts) st
    else st
  Stacktrace.mk (classifyAndFallback opts g st1.frames)

/-- Per-exception processing (lines 344-345): only exceptions that carry a
stack trace are touched. -/
def processException (opts : ClientOptions) (g : Globals)
    (exc : SentryException) : SentryException :=
  match exc.stacktrace with
  | some st => { exc with stacktrace := some (processStacktrace opts g st) }
  | none => exc

/-- Defaulting half of `prepare_event` (lines 323-417): fill release,
environment, server name and SDK info only when absent; rewrite platform
`other` to `native` unconditionally; fill the debug-image list from the cached
constant only when empty; process every exception's stack trace.  Again each
assignment reads only pre-merge state of other fields. -/
def applyDefaults (opts : ClientOptions) (g : Globals) (event : Event) : Event :=
  { event with
    release := if event.release.isNone then opts.release else event.release
    environment :=
      if event.environment.isNone then opts.environment else event.environment
    server_name :=
      if event.server_name.isNone then opts.server_name else event.server_name
    sdk_info := if event.sdk_info.isNone then some g.sdkInfo else event.sdk_info
    platform := if event.platform == "other" then "native" else event.platform
    debug_meta :=
      if event.debug_meta.isEmpty then g.debugMetaImages else event.debug_meta
    exceptions := event.exceptions.map (processException opts g) }

/-- `Client::prepare_event` (lines 262-418): merge the scope when present, then
apply configuration defaults and frame processing. -/
def prepare_event (opts : ClientOptions) (g : Globals) (event : Event)
    (scope : Option Scope) : Event :=
  applyDefaults opts g
    (match scope with
     | some s => mergeScope event s
     | none => event)

/-- The delivery channel handle: its DSN, and the identifier / drain results it
would produce (the queuing engine itself is the external collaborator). -/
structure Transport where
  dsn : String
  sendResult : Event → Nat
  drainResult : Option Nat → Bool

/-- The Sentry client object: options plus an optional transport. -/
structure Client where
  options : ClientOptions
  transport : Option Transport

/-- Observable calls into the transport, so that "never touches the channel"
is a statement about the produced trace. -/
inductive TransportOp
  | send (e : Event)
  | drain (timeout : Option Nat)
  deriving DecidableEq

/-- The nil UUID produced by `Default::default()` for `Uuid`, modelled as 0. -/
def nilUuid : Nat := 0

/-- Returns the DSN that constructed this client (lines 428-430); `none` marks
a disabled client. -/
def Client.dsn (c : Client) : Option String :=
  c.transport.map (fun t => t.dsn)

/-- `Client::capture_event` (lines 433-440): with a transport, prepare the
event and send it, returning the transport's identifier; without one, return
the nil UUID and perform no preparation or transport call.  The second
component is the trace of transport operations performed. -/
def capture_event (g : Globals) (c : Client) (event : Event)
    (scope : Option Scope) : Nat × List TransportOp :=
  match c.transport with
  | some t =>
    let e := prepare_event c.options g event scope
    (t.sendResult e, [TransportOp.send e])
  | none => (nilUuid, [])

/-- `Client::drain_events` (lines 447-453): delegate to the transport when
present, otherwise return true immediately. -/
def drain_events (c : Client) (timeout : Option Nat) : Bool × List TransportOp :=
  match c.transport with
  | some t => (t.drainResult timeout, [TransportOp.drain timeout])
  | none => (true, [])

/-- Modelled from the spec: `api::Dsn` and its parser are not under src; a DSN
is modelled by its string and the fallible parser is a parameter.
`IntoClientConfig for &str` (lines 124-132): an empty string yields no config,
a non-empty one is parsed with `unwrap`, so a parse failure is a panic,
modelled as `none`. -/
def intoClientConfigStr (parseDsn : String → Option String) (s : String) :
    Option (Option String × Option ClientOptions) :=
  if s.isEmpty then some (none, none)
  else
    match parseDsn s with
    | some d => some (some d, none)
    | none => none

/-- `Client::from_config` after config conversion (lines 210-226): take the
config's DSN, fall back to parsing the `SENTRY_DSN` environment variable where
a parse failure is discarded with `.ok()`, and yield the DSN/options pair the
client is built from, or `none` for a disabled outcome. -/
def from_config (parseDsn : String → Option String) (envDsn : Option String)
    (cfg : Option String × Option ClientOptions) :
    Option (String × Option ClientOptions) :=
  match oOr cfg.1 (match envDsn with
                   | some v => parseDsn v
                   | none => none) with
  | some dsn => some (dsn, cfg.2)
  | none => none

/-- Concrete options for witnesses: default-shaped, with backtrace trimming on. -/
def opts0 : ClientOptions :=
  ⟨[], [], [], 100, true, none, none, none, "sentry-rust/0.2.0"⟩

/-- Concrete external collaborators for witnesses. -/
def g0 : Globals :=
  ⟨"sdk", [], fun _ => false, fun _ => false⟩

/-- Concrete empty event for witnesses. -/
def ev0 : Event :=
  ⟨[], none, [], [], [], none, [], none, none, none, none, "other", [], []⟩

/-- Claim C6: the crate-name extraction satisfies the three specified test
vectors: a plain qualified path yields its leading crate, the `_<`-wrapped
mangled closure form yields the crate after the wrapper, and the `_<F as ...>`
wrapper form yields no extraction. -/
theorem c6_parse_crate_name_vectors :
    parse_crate_name "futures::task_impl::std::set" = some "futures" ∧
    parse_crate_name
        "_<futures..task_impl..Spawn<T>>::enter::_\x7b\x7bclosure\x7d\x7d" =
      some "futures" ∧
    parse_crate_name "_<F as alloc..boxed..FnBox<A>>::call_box" = none :=
  ⟨by decide, by decide, by decide⟩

/-- Claim C9: `prepare_event` rewrites the platform to `native` exactly when it
is `other`, independent of scope and configuration, and leaves every other
platform value unchanged. -/
theorem c9_platform_normalization (opts : ClientOptions) (g : Globals)
    (e : Event) (s : Option Scope) :
    (prepare_event opts g e s).platform =
      (if e.platform = "other" then "native" else e.platform) := by
  have h : (prepare_event opts g e s).platform =
      (if e.platform == "other" then "native" else e.platform) := by
    cases s <;> rfl
  rw [h]
  simp only [beq_iff_eq]

/-- Claim C8: after the scope merge, each of release, environment, server name,
SDK info and the debug-image list is filled from the configuration or the
cached constants only when currently unset or empty; an already-set field keeps
exactly its prior value. -/
theorem c8_defaults_fill_only_if_empty (opts : ClientOptions) (g : Globals)
    (e : Event) (s : Option Scope) :
    (prepare_event opts g e s).release =
      (if e.release.isNone then opts.release else e.release) ∧
    (prepare_event opts g e s).environment =
      (if e.environment.isNone then opts.environment else e.environment) ∧
    (prepare_event opts g e s).server_name =
      (if e.server_name.isNone then opts.server_name else e.server_name) ∧
    (prepare_event opts g e s).sdk_info =
      (if e.sdk_info.isNone then some g.sdkInfo else e.sdk_info) ∧
    (prepare_event opts g e s).debug_meta =
      (if e.debug_meta.isEmpty then g.debugMetaImages else e.debug_meta) := by
  cases s <;> exact ⟨rfl, rfl, rfl, rfl, rfl⟩

/-- Claim C7: a disabled client (no transport) captures every event to the nil
UUID with an empty transport-operation trace (so no preparation result is ever
observable and no channel call happens), and drains to `true` immediately for
every optional timeout. -/
theorem c7_disabled_client (g : Globals) (c : Client) (e : Event)
    (s : Option Scope) (t : Option Nat) (h : c.transport = none) :
    capture_event g c e s = (nilUuid, []) ∧ drain_events c t = (true, []) := by
  cases c with
  | mk o tr =>
    cases tr with
    | none => exact ⟨rfl, rfl⟩
    | some tp => exact Option.noConfusion h

/-- Claim C7 witness: a concretely disabled client. -/
theorem c7_disabled_client_witness :
    capture_event g0 ⟨opts0, none⟩ ev0 none = (nilUuid, []) ∧
    drain_events ⟨opts0, none⟩ none = (true, []) :=
  c7_disabled_client g0 ⟨opts0, none⟩ ev0 none none rfl

/-- Claim C10: when the config supplies no DSN and the `SENTRY_DSN` environment
value fails to parse, `from_config` yields no client and cannot panic (the
parse failure is discarded), whereas the `&str` config conversion on the same
malformed non-empty string panics (modelled as `none`). -/
theorem c10_env_dsn_parse_failure (parseDsn : String → Option String)
    (opts : Option ClientOptions) (s : String)
    (hne : s.isEmpty = false) (hp : parseDsn s = none) :
    from_config parseDsn (some s) (none, opts) = none ∧
    intoClientConfigStr parseDsn s = none := by
  constructor
  · simp [from_config, oOr, hp]
  · simp [intoClientConfigStr, hne, hp]

/-- Claim C10 witness: a parser rejecting everything, on a non-empty string. -/
theorem c10_env_dsn_parse_failure_witness :
    from_config (fun _ => none) (some "not a dsn") (none, none) = none ∧
    intoClientConfigStr (fun _ => none) "not a dsn" = none :=
  c10_env_dsn_parse_failure (fun _ => none) none "not a dsn" (by decide) rfl

/-- Condition of the fingerprint special case, expressed over the list shape:
the code's length-and-head test recognises exactly the two one-element
sentinel lists. -/
theorem fingerprint_cond_eq (fp : List String) :
    (fp.length == 1 &&
        (fp.headD "" == fingerprintDefaultA || fp.headD "" == fingerprintDefaultB)) =
      decide (fp = [fingerprintDefaultA] ∨ fp = [fingerprintDefaultB]) := by
  match fp with
  | [] => simp
  | [x] =>
    by_cases ha : x = fingerprintDefaultA <;>
      by_cases hb : x = fingerprintDefaultB <;>
      simp [List.headD, ha, hb]
  | x :: y :: t => simp

/-- Claim C3: for a present scope, `prepare_event` replaces the fingerprint by
the scope override exactly when the event's fingerprint is the one-element
sentinel `[{{ default }}]` or `[{{default}}]` (and an override exists); in
every other case the fingerprint is untouched. -/
theorem c3_fingerprint_sentinel (opts : ClientOptions) (g : Globals)
    (e : Event) (sc : Scope) :
    (prepare_event opts g e (some sc)).fingerprint =
      (if e.fingerprint = [fingerprintDefaultA] ∨ e.fingerprint = [fingerprintDefaultB]
       then sc.fingerprint.getD e.fingerprint
       else e.fingerprint) := by
  have h : (prepare_event opts g e (some sc)).fingerprint =
      (if (e.fingerprint.length == 1 &&
            (e.fingerprint.headD "" == fingerprintDefaultA ||
              e.fingerprint.headD "" == fingerprintDefaultB)) then
        match sc.fingerprint with
        | some fp => fp
        | none => e.fingerprint
       else e.fingerprint) := rfl
  rw [h, fingerprint_cond_eq]
  cases hsf : sc.fingerprint <;>
    by_cases hc : e.fingerprint = [fingerprintDefaultA] ∨ e.fingerprint = [fingerprintDefaultB] <;>
    simp [hc, hsf]

/-- Lookup in a concatenation of association lists prefers the left list. -/
theorem alLookup_append {V : Type} (l1 l2 : List (String × V)) (k : String) :
    alLookup (l1 ++ l2) k = oOr (alLookup l1 k) (alLookup l2 k) := by
  induction l1 with
  | nil => simp [alLookup, oOr]
  | cons p rest ih =>
    cases p with
    | mk k' v =>
      by_cases hk : k' = k <;> simp [alLookup, hk, oOr, ih]

/-- Lookup after an overwriting insert: the inserted key maps to the new value,
all other keys are untouched. -/
theorem alLookup_alInsert {V : Type} (m : List (String × V)) (k : String)
    (v : V) (k' : String) :
    alLookup (alInsert m k v) k' = (if k = k' then some v else alLookup m k') := by
  induction m with
  | nil => by_cases hk : k = k' <;> simp [alInsert, alLookup, hk]
  | cons p rest ih =>
    cases p with
    | mk k0 v0 =>
      by_cases h0 : k0 = k
      · subst h0
        by_cases hk : k0 = k' <;> simp [alInsert, alLookup, hk]
      · by_cases hk : k0 = k'
        · subst hk
          have h2 : ¬(k = k0) := fun h => h0 h.symm
          simp [alInsert, alLookup, h0, h2]
        · simp [alInsert, alLookup, h0, hk, ih]

/-- Lookup after `extend`: the last binding of the added list wins when the key
is bound there; otherwise the base map's binding survives. -/
theorem alLookup_alExtend {V : Type} (m l : List (String × V)) (k : String) :
    alLookup (alExtend m l) k = oOr (alLookup l.reverse k) (alLookup m k) := by
  induction l generalizing m with
  | nil => simp [alExtend, alLookup, oOr]
  | cons p rest ih =>
    have hstep : alExtend m (p :: rest) = alExtend (alInsert m p.1 p.2) rest := rfl
    rw [hstep, ih, List.reverse_cons, alLookup_append, alLookup_alInsert]
    cases hr : alLookup rest.reverse k with
    | some v => simp [oOr]
    | none =>
      by_cases hp : p.1 = k <;> simp [oOr, alLookup, hp]

/-- Claim C1 (amended): merging a present scope's tags/extra/contexts into the
event follows `HashMap::extend` semantics — for a key bound by the snapshot
map the snapshot's (last) binding wins, overwriting any pre-existing event
entry, while keys the snapshot does not bind keep the event's original
binding. -/
theorem c1_merge_snapshot_wins (opts : ClientOptions) (g : Globals) (e : Event)
    (sc : Scope) (k : String) :
    alLookup (prepare_event opts g e (some sc)).tags k =
      oOr (alLookup sc.tags.reverse k) (alLookup e.tags k) ∧
    alLookup (prepare_event opts g e (some sc)).extra k =
      oOr (alLookup sc.extra.reverse k) (alLookup e.extra k) ∧
    alLookup (prepare_event opts g e (some sc)).contexts k =
      oOr (alLookup sc.contexts.reverse k) (alLookup e.contexts k) := by
  refine ⟨?_, ?_, ?_⟩
  · have h : (prepare_event opts g e (some sc)).tags =
        (if sc.tags.isEmpty then e.tags else alExtend e.tags sc.tags) := rfl
    rw [h]
    cases htags : sc.tags with
    | nil => simp [alLookup, oOr]
    | cons p r => simp [alLookup_alExtend]
  · have h : (prepare_event opts g e (some sc)).extra =
        (if sc.extra.isEmpty then e.extra else alExtend e.extra sc.extra) := rfl
    rw [h]
    cases hextra : sc.extra with
    | nil => simp [alLookup, oOr]
    | cons p r => simp [alLookup_alExtend]
  · have h : (prepare_event opts g e (some sc)).contexts =
        (if sc.contexts.isEmpty then e.contexts else alExtend e.contexts sc.contexts) := rfl
    rw [h]
    cases hctx : sc.contexts with
    | nil => simp [alLookup, oOr]
    | cons p r => simp [alLookup_alExtend]

/-- Concrete event for the C1 counterexample: a tag the caller set. -/
def c1ev : Event :=
  ⟨[], none, [], [("server", "event-value")], [], none, [], none, none, none,
    none, "other", [], []⟩

/-- Concrete scope for the C1 counterexample: the same tag key with a
different value. -/
def c1scope : Scope :=
  ⟨[], none, [], [("server", "scope-value")], [], none, none⟩

/-- Claim C1 counterexample: the event binds the tag key before the merge, yet
after `prepare_event` the key holds the snapshot's value, not the event's
original one — the merge does overwrite a pre-existing entry. -/
theorem c1_overwrite_counterexample :
    alLookup c1ev.tags "server" = some "event-value" ∧
    alLookup (prepare_event opts0 g0 c1ev (some c1scope)).tags "server" =
      some "scope-value" :=
  ⟨by decide, by decide⟩

/-- Claim C5: a frame with a function name and an unset in-app flag whose name
matches both an exclude prefix and an include prefix is classified
in-app = false (exclude wins), and it contributes nothing to the
`any_in_app` flag. -/
theorem c5_exclude_wins (opts : ClientOptions) (g : Globals) (frame : Frame)
    (fn : String) (hfn : frame.function = some fn) (hia : frame.in_app = none)
    (hex : opts.in_app_exclude.any (fun m => strStartsWith fn m) = true)
    (hin : opts.in_app_include.any (fun m => strStartsWith fn m) = true) :
    (classifyFrame opts g frame).1.in_app = some false ∧
    (classifyFrame opts g frame).2 = false := by
  cases hp : frame.package <;> simp [classifyFrame, hfn, hia, hp, hex]

/-- Concrete options for the C5 witness: `fut` is an include prefix and
`futures` an exclude prefix, both matching the frame's function. -/
def c5opts : ClientOptions :=
  ⟨["fut"], ["futures"], [], 100, true, none, none, none, "sentry-rust/0.2.0"⟩

/-- Concrete frame for the C5 witness. -/
def c5frame : Frame := ⟨some "futures::task_impl::std::set", none, none⟩

/-- Claim C5 witness: the doubly-matched frame ends excluded and does not set
the in-app flag. -/
theorem c5_exclude_wins_witness :
    (classifyFrame c5opts g0 c5frame).1.in_app = some false ∧
    (classifyFrame c5opts g0 c5frame).2 = false :=
  c5_exclude_wins c5opts g0 c5frame "futures::task_impl::std::set" rfl rfl
    (by decide) (by decide)

/-- Concrete options for the C2 counterexample: trimming disabled, everything
else default-shaped. -/
def c2opts : ClientOptions :=
  ⟨[], [], [], 100, false, none, none, none, "sentry-rust/0.2.0"⟩

/-- Concrete event for the C2 counterexample: one exception with a one-frame
stack trace, in-app unset. -/
def c2ev : Event :=
  ⟨[], none, [], [], [], none, [], none, none, none, none, "other", [],
    [⟨some ⟨[⟨some "main", none, none⟩]⟩⟩]⟩

/-- Claim C2 counterexample: with `trim_backtraces = false` the frame is still
rewritten — the classification fallback sets its unset in-app flag to true, so
`prepare_event` does not leave the frames unchanged. -/
theorem c2_frames_changed_counterexample :
    c2opts.trim_backtraces = false ∧
    (prepare_event c2opts g0 c2ev none).exceptions =
      [⟨some ⟨[⟨some "main", none, some true⟩]⟩⟩] ∧
    (prepare_event c2opts g0 c2ev none).exceptions ≠ c2ev.exceptions :=
  ⟨rfl, by decide, by decide⟩

/-- Claim C2 (amended): only the border-trimming pass is gated on
`trim_backtraces`; with the flag off, every present stack trace still goes
through per-frame classification and the in-app fallback. -/
theorem c2_classification_unconditional (opts : ClientOptions) (g : Globals)
    (e : Event) (s : Option Scope) (h : opts.trim_backtraces = false) :
    (prepare_event opts g e s).exceptions =
      e.exceptions.map (fun exc =>
        match exc.stacktrace with
        | some st =>
          { exc with stacktrace := some (Stacktrace.mk (classifyAndFallback opts g st.frames)) }
        | none => exc) := by
  have hexc : (prepare_event opts g e s).exceptions =
      e.exceptions.map (processException opts g) := by
    cases s <;> rfl
  rw [hexc]
  have hfun : processException opts g = fun exc =>
      match exc.stacktrace with
      | some st =>
        { exc with stacktrace := some (Stacktrace.mk (classifyAndFallback opts g st.frames)) }
      | none => exc := by
    funext exc
    cases hst : exc.stacktrace with
    | none => simp [processException, hst]
    | some st => simp [processException, hst, processStacktrace, h]
  rw [hfun]

/-- Claim C2 witness: concrete no-trim options with a one-frame trace. -/
theorem c2_classification_unconditional_witness :
    (prepare_event c2opts g0 c2ev none).exceptions =
      c2ev.exceptions.map (fun exc =>
        match exc.stacktrace with
        | some st =>
          { exc with stacktrace := some (Stacktrace.mk (classifyAndFallback c2opts g0 st.frames)) }
        | none => exc) :=
  c2_classification_unconditional c2opts g0 c2ev none rfl

/-- Per-frame contribution to `any_in_app` coincides with "the processed frame
has a function name and ends with in-app = true": frames without a function
name are skipped by the loop and never counted, even when they carry an
explicit in-app = true. -/
theorem classifyFrame_snd (opts : ClientOptions) (g : Globals) (f : Frame) :
    (classifyFrame opts g f).2 =
      ((classifyFrame opts g f).1.function.isSome &&
        (classifyFrame opts g f).1.in_app == some true) := by
  cases hf : f.function with
  | none => simp [classifyFrame, hf]
  | some fn =>
    cases hia : f.in_app with
    | some b =>
      cases b <;> cases hp : f.package <;> simp [classifyFrame, hf, hia, hp]
    | none =>
      cases hp : f.package <;>
        cases hex : opts.in_app_exclude.any (fun m => strStartsWith fn m) <;>
        cases hin : opts.in_app_include.any (fun m => strStartsWith fn m) <;>
        cases hsys : g.isSysFunction fn <;>
        simp [classifyFrame, hf, hia, hp, hex, hin, hsys]

/-- The `any_in_app` flag after the loop holds exactly when some processed
frame has a function name and ends with in-app = true. -/
theorem classifyFrames_snd (opts : ClientOptions) (g : Globals)
    (frames : List Frame) :
    (classifyFrames opts g frames).2 =
      (classifyFrames opts g frames).1.any
        (fun f => f.function.isSome && f.in_app == some true) := by
  induction frames with
  | nil => rfl
  | cons f rest ih =>
    simp only [classifyFrames, List.any_cons]
    rw [classifyFrame_snd, ih]

/-- Claim C4 (amended): the fallback triggers on "no frame with a function
name ended the pass in-app", not on "no frame at all": when no function-named
frame ends in-app = true, every frame with a still-unset flag — including
functionless frames — is set to true; when some function-named frame ends
in-app = true, the pass result is returned untouched.  A functionless frame
carrying in-app = true does not suppress the fallback. -/
theorem c4_fallback_trigger (opts : ClientOptions) (g : Globals)
    (frames : List Frame) :
    classifyAndFallback opts g frames =
      (if (classifyFrames opts g frames).1.any
            (fun f => f.function.isSome && f.in_app == some true) then
        (classifyFrames opts g frames).1
       else applyFallback (classifyFrames opts g frames).1) := by
  simp only [classifyAndFallback]
  rw [classifyFrames_snd]

/-- Concrete frames for the C4 counterexample: a functionless frame already
marked in-app = true, followed by a functionless unset frame. -/
def c4frames : List Frame := [⟨none, none, some true⟩, ⟨none, none, none⟩]

/-- Concrete event for the C4 counterexample. -/
def c4ev : Event :=
  ⟨[], none, [], [], [], none, [], none, none, none, none, "other", [],
    [⟨some ⟨c4frames⟩⟩]⟩

/-- Claim C4 counterexample: the first frame ends the pass with
in-app = true, yet the fallback still rewrites the second frame's unset flag
to true — "no fallback rewriting occurs" fails. -/
theorem c4_fallback_counterexample :
    (classifyFrames opts0 g0 c4frames).1.any (fun f => f.in_app == some true) = true ∧
    (prepare_event opts0 g0 c4ev none).exceptions =
      [⟨some ⟨[⟨none, none, some true⟩, ⟨none, none, some true⟩]⟩⟩] :=
  ⟨by decide, by decide⟩
